import Mathlib

/-!
Verification of the campaign-builder repository: a shallow embedding of the
reference-data gateway (partner / third-party creation routes and storage),
the campaign form's hierarchical dropdown resolvers, the cascade-reset state
machine, the required-field policy, the zod submission schema, the per-field
status function, and the completed-field tracker, together with theorems
settling the specification claims.
-/

namespace CampaignBuilder

/-! ## Reference-data gateway

The store is modelled as the list of partner (resp. third-party) names, in
insertion order.  `routes.ts` performs an existence check before inserting;
`storage.ts` implements `checkPartnerExists` as an exact-match lookup and
`createPartner` as a plain insert.
-/

/-- JavaScript's `String.prototype.trim`: strip leading and trailing
whitespace.  Implemented over the character list so that it evaluates by
kernel reduction. -/
def jsTrim (s : String) : String :=
  ⟨((s.data.dropWhile Char.isWhitespace).reverse.dropWhile Char.isWhitespace).reverse⟩

/-- Outcome of a create call: HTTP 201 with the created record,
HTTP 409 (duplicate name), or the client-side empty-name rejection. -/
inductive GatewayResult where
  | created (name : String)
  | duplicateName
  | invalidInput
deriving DecidableEq

/-- Storage `DatabaseStorage.checkPartnerExists`: select where name equals, exact match. -/
def checkPartnerExists (store : List String) (name : String) : Bool :=
  store.contains name

/-- Storage `DatabaseStorage.checkThirdPartyExists`: select where name equals, exact match. -/
def checkThirdPartyExists (store : List String) (name : String) : Bool :=
  store.contains name

/-- Storage `DatabaseStorage.createPartner`: insert the row. -/
def createPartner (store : List String) (name : String) : List String :=
  store ++ [name]

/-- Storage `DatabaseStorage.createThirdParty`: insert the row. -/
def createThirdParty (store : List String) (name : String) : List String :=
  store ++ [name]

/-- Route `POST /api/partners` (routes.ts): check existence first, answer 409 on a
duplicate, otherwise insert and answer 201 with the record. -/
def postPartnersRoute (store : List String) (name : String) :
    List String × GatewayResult :=
  if checkPartnerExists store name then (store, .duplicateName)
  else (createPartner store name, .created name)

/-- Route `POST /api/third-parties` (routes.ts): same shape as the partner route. -/
def postThirdPartiesRoute (store : List String) (name : String) :
    List String × GatewayResult :=
  if checkThirdPartyExists store name then (store, .duplicateName)
  else (createThirdParty store name, .created name)

/-- Client handler `handleAddPartner` (CampaignForm): reject a name that is empty after
trimming before any network call; otherwise post the trimmed name. -/
def handleAddPartner (store : List String) (newPartnerName : String) :
    List String × GatewayResult :=
  if jsTrim newPartnerName = "" then (store, .invalidInput)
  else postPartnersRoute store (jsTrim newPartnerName)

/-- Client handler `handleAddThirdParty` (CampaignForm): same client-side guard. -/
def handleAddThirdParty (store : List String) (newThirdPartyName : String) :
    List String × GatewayResult :=
  if jsTrim newThirdPartyName = "" then (store, .invalidInput)
  else postThirdPartiesRoute store (jsTrim newThirdPartyName)

lemma contains_append_singleton (l : List String) (a : String) :
    (l ++ [a]).contains a = true := by
  simp

/-- C1: a name that is empty after trimming is rejected client-side with
`InvalidInput`; no store call happens and the collection is unchanged, for
partners and for third parties alike. -/
theorem create_blank_name_invalidInput (partnersStore thirdPartiesStore : List String)
    (name : String) (h : jsTrim name = "") :
    handleAddPartner partnersStore name = (partnersStore, .invalidInput) ∧
    handleAddThirdParty thirdPartiesStore name = (thirdPartiesStore, .invalidInput) := by
  constructor <;> simp [handleAddPartner, handleAddThirdParty, h]

theorem create_blank_name_invalidInput_witness :
    handleAddPartner ["Acme"] "   " = (["Acme"], .invalidInput) ∧
    handleAddThirdParty [] "   " = ([], .invalidInput) :=
  create_blank_name_invalidInput ["Acme"] [] "   " (by decide)

/-- C2: after a successful create of `name`, the existence check answers true,
and a second create of the same name answers `DuplicateName` (409) and leaves
the collection unchanged — no second record is inserted. -/
theorem create_then_exists_then_duplicate (store : List String) (name : String)
    (h : (postPartnersRoute store name).2 = .created name) :
    checkPartnerExists (postPartnersRoute store name).1 name = true ∧
    postPartnersRoute (postPartnersRoute store name).1 name =
      ((postPartnersRoute store name).1, .duplicateName) := by
  by_cases hc : checkPartnerExists store name
  · simp [postPartnersRoute, hc] at h
  · have h1 : (postPartnersRoute store name).1 = store ++ [name] := by
      simp [postPartnersRoute, hc, createPartner]
    have hex : checkPartnerExists (store ++ [name]) name = true :=
      contains_append_singleton store name
    refine ⟨by simpa [h1] using hex, ?_⟩
    rw [h1]
    simp [postPartnersRoute, hex]

theorem create_then_exists_then_duplicate_witness :
    checkPartnerExists (postPartnersRoute [] "Acme").1 "Acme" = true ∧
    postPartnersRoute (postPartnersRoute [] "Acme").1 "Acme" =
      ((postPartnersRoute [] "Acme").1, .duplicateName) :=
  create_then_exists_then_duplicate [] "Acme" (by decide)

/-! ## Hierarchy table and dependent-field resolvers

`hierarchicalData` in the form component is a static nested object; it is
embedded as association lists keyed by strings.  JavaScript's
`Array.prototype.sort()` on these ASCII string lists is lexicographic, so it
is embedded as an insertion sort by `String` order.
-/

/-- Lexicographic comparison of character lists (helper for `strLe`). -/
def charListLe : List Char → List Char → Bool
  | [], _ => true
  | _ :: _, [] => false
  | a :: as, b :: bs => if a < b then true else if b < a then false else charListLe as bs

/-- Lexicographic string order, the comparison JavaScript's default
`Array.prototype.sort()` applies to these ASCII strings.  (Core's `String`
order is not used because its iterator-based implementation does not reduce
in the kernel.) -/
def strLe (a b : String) : Bool := charListLe a.data b.data

/-- Insert into a sorted list, keeping order (helper for `sortStrings`). -/
def insertSorted (x : String) : List String → List String
  | [] => [x]
  | y :: ys => if strLe x y then x :: y :: ys else y :: insertSorted x ys

/-- JavaScript `[...list].sort()` on a string array: lexicographic sort. -/
def sortStrings : List String → List String
  | [] => []
  | x :: xs => insertSorted x (sortStrings xs)

/-- Property access `obj[key]` on a string-keyed object literal, `none` on a
missing key (the `key in obj` test is `isSome` of this). -/
def lookupStr {α : Type} (key : String) : List (String × α) → Option α
  | [] => none
  | (k, v) :: rest => if key = k then some v else lookupStr key rest

lemma mem_insertSorted {a x : String} {l : List String} :
    a ∈ insertSorted x l ↔ a = x ∨ a ∈ l := by
  induction l with
  | nil => simp [insertSorted]
  | cons y ys ih =>
    by_cases h : strLe x y
    · simp [insertSorted, h]
    · simp [insertSorted, h, ih]; tauto

lemma mem_sortStrings {a : String} {l : List String} :
    a ∈ sortStrings l ↔ a ∈ l := by
  induction l with
  | nil => simp [sortStrings]
  | cons x xs ih => simp [sortStrings, mem_insertSorted, ih]

/-- One entry of `hierarchicalData.campaignHierarchy`: the valid sources, the
source → ad-type map and the ad-type → detail map for a campaign type. -/
structure CampaignTypeData where
  sources : List String
  adTypes : List (String × List String)
  adTypeDetails : List (String × List String)

/-- Table `hierarchicalData.campaignHierarchy`, transcribed from the form component. -/
def campaignHierarchy : List (String × CampaignTypeData) :=
  [("Display Ads",
    { sources := ["Google", "Facebook", "LinkedIn"],
      adTypes := [("Google", ["Banner", "Video"]),
                  ("Facebook", ["Image", "Video", "Carousel"]),
                  ("LinkedIn", ["Banner", "Text"])],
      adTypeDetails := [("Banner", ["Standard Banner", "Rich Media"]),
                        ("Video", ["Interstitial", "Native"]),
                        ("Image", ["Standard Banner", "Native"]),
                        ("Carousel", ["Rich Media", "Native"]),
                        ("Text", ["Standard Banner"])] }),
   ("Email Campaign",
    { sources := ["Email Newsletter", "Organic Social"],
      adTypes := [("Email Newsletter", ["Text", "Image"]),
                  ("Organic Social", ["Text", "Image", "Video"])],
      adTypeDetails := [("Text", ["Standard Banner"]),
                        ("Image", ["Standard Banner", "Rich Media"]),
                        ("Video", ["Native", "Interstitial"])] }),
   ("Google Ads",
    { sources := ["Google", "Paid Social"],
      adTypes := [("Google", ["Banner", "Video", "Text"]),
                  ("Paid Social", ["Image", "Video", "Carousel"])],
      adTypeDetails := [("Banner", ["Standard Banner", "Rich Media", "Expandable"]),
                        ("Video", ["Interstitial", "Native"]),
                        ("Text", ["Standard Banner"]),
                        ("Image", ["Standard Banner", "Rich Media"]),
                        ("Carousel", ["Rich Media", "Native"])] }),
   ("Social Media",
    { sources := ["Facebook", "LinkedIn", "Organic Social", "Paid Social"],
      adTypes := [("Facebook", ["Image", "Video", "Carousel", "Story"]),
                  ("LinkedIn", ["Banner", "Text", "Image"]),
                  ("Organic Social", ["Text", "Image", "Video"]),
                  ("Paid Social", ["Image", "Video", "Carousel"])],
      adTypeDetails := [("Image", ["Standard Banner", "Rich Media", "Native"]),
                        ("Video", ["Interstitial", "Native"]),
                        ("Carousel", ["Rich Media", "Native"]),
                        ("Story", ["Native"]),
                        ("Banner", ["Standard Banner", "Rich Media"]),
                        ("Text", ["Standard Banner"])] }),
   ("Video Campaign",
    { sources := ["Google", "Facebook", "Paid Social"],
      adTypes := [("Google", ["Video"]),
                  ("Facebook", ["Video", "Story"]),
                  ("Paid Social", ["Video", "Carousel"])],
      adTypeDetails := [("Video", ["Interstitial", "Native", "Rich Media"]),
                        ("Story", ["Native"]),
                        ("Carousel", ["Rich Media", "Native"])] })]

/-- Table `hierarchicalData.costCenterSubLedgers`, transcribed from the form component. -/
def costCenterSubLedgers : List (String × List String) :=
  [("Engineering", ["Engineering Projects", "Engineering Operations", "Engineering R&D"]),
   ("Marketing", ["Marketing Campaigns", "Marketing Events", "Marketing Content"]),
   ("Operations", ["Operations Support", "Operations Infrastructure", "Operations Maintenance"]),
   ("Product", ["Product Development", "Product Support", "Product Research"]),
   ("Sales", ["Sales Activities", "Sales Support", "Sales Training"])]

/-- List `mockData.campaignTypes = Object.keys(campaignHierarchy).sort()`. -/
def mockCampaignTypes : List String :=
  sortStrings (campaignHierarchy.map (·.1))

/-- List `mockData.costCenters = Object.keys(costCenterSubLedgers).sort()`. -/
def mockCostCenters : List String :=
  sortStrings (costCenterSubLedgers.map (·.1))

/-- Resolver `filteredCampaignSources`: empty on an unset or unknown campaign type,
otherwise the sorted source list. -/
def filteredCampaignSources (campaignType : String) : List String :=
  if campaignType = "" then []
  else
    match lookupStr campaignType campaignHierarchy with
    | none => []
    | some typeData => sortStrings typeData.sources

/-- Resolver `filteredAdTypes`: empty on an unset or unknown campaign type, an unset
source, or a source with no entry in the type's ad-type map. -/
def filteredAdTypes (campaignType campaignSource : String) : List String :=
  if campaignType = "" ∨ campaignSource = "" then []
  else
    match lookupStr campaignType campaignHierarchy with
    | none => []
    | some typeData =>
      match lookupStr campaignSource typeData.adTypes with
      | none => []
      | some adTypeList => sortStrings adTypeList

/-- Resolver `filteredAdTypeDetails`: empty on an unset or unknown campaign type, an
unset ad type, or an ad type with no entry in the type's detail map. -/
def filteredAdTypeDetails (campaignType adType : String) : List String :=
  if campaignType = "" ∨ adType = "" then []
  else
    match lookupStr campaignType campaignHierarchy with
    | none => []
    | some typeData =>
      match lookupStr adType typeData.adTypeDetails with
      | none => []
      | some detailList => sortStrings detailList

/-- Resolver `filteredSubLedgers`: empty on an unset or unknown cost center. -/
def filteredSubLedgers (costCenter : String) : List String :=
  if costCenter = "" then []
  else
    match lookupStr costCenter costCenterSubLedgers with
    | none => []
    | some subLedgerList => sortStrings subLedgerList

/-- C5: whenever the source is not among the valid sources of the campaign
type — in particular for an unknown or unset campaign type — the ad-type
resolver answers the empty list (the resolver is a total function, so unknown
keys can never raise). -/
theorem filteredAdTypes_empty_of_invalid_source (campaignType campaignSource : String)
    (h : campaignSource ∉ filteredCampaignSources campaignType) :
    filteredAdTypes campaignType campaignSource = [] := by
  unfold filteredCampaignSources at h
  unfold filteredAdTypes
  by_cases hct : campaignType = ""
  · simp [hct]
  · by_cases hcs : campaignSource = ""
    · simp [hcs]
    · simp only [hct, if_false, hcs, or_self, ite_false]
      simp only [campaignHierarchy, lookupStr] at h ⊢
      split_ifs at h ⊢ <;>
        simp_all [mem_sortStrings, lookupStr]

theorem filteredAdTypes_empty_of_invalid_source_witness :
    filteredAdTypes "Display Ads" "Email Newsletter" = [] :=
  filteredAdTypes_empty_of_invalid_source "Display Ads" "Email Newsletter" (by decide)

/-! ## Cascade-reset state machine

The projection of the form state onto the hierarchy fields, together with the
four `useRef` previous-value cells used by the cascade-reset `useEffect`s.
The remaining form fields neither read nor write these six values, so the
projection is closed under every other field edit.
-/

/-- The hierarchy-related form values and the `prevXxx.current` refs. -/
@[ext] structure FormState where
  campaignType : String
  campaignSource : String
  adType : String
  adTypeDetail : String
  costCenter : String
  subLedger : String
  prevCampaignType : Option String
  prevCampaignSource : Option String
  prevAdType : Option String
  prevCostCenter : Option String
deriving DecidableEq

/-- The hierarchy-related fields a user can commit a value to. -/
inductive Field where
  | campaignType
  | campaignSource
  | adType
  | adTypeDetail
  | costCenter
  | subLedger
deriving DecidableEq

/-- The `costCenter || null` normalisation the cost-center effect applies
before comparing and storing the previous value. -/
def ccOrNull (s : String) : Option String :=
  if s = "" then none else some s

/-- The `[campaignType]` effect: clear source, ad type and detail when the
previous value is initialised and differs, then record the current value. -/
def runCampaignTypeEffect (s : FormState) : FormState :=
  if s.prevCampaignType ≠ none ∧ s.prevCampaignType ≠ some s.campaignType then
    { s with campaignSource := "", adType := "", adTypeDetail := "",
             prevCampaignType := some s.campaignType }
  else { s with prevCampaignType := some s.campaignType }

/-- The `[campaignSource]` effect: clear ad type and detail on a change. -/
def runCampaignSourceEffect (s : FormState) : FormState :=
  if s.prevCampaignSource ≠ none ∧ s.prevCampaignSource ≠ some s.campaignSource then
    { s with adType := "", adTypeDetail := "",
             prevCampaignSource := some s.campaignSource }
  else { s with prevCampaignSource := some s.campaignSource }

/-- The `[adType]` effect: clear the detail on a change. -/
def runAdTypeEffect (s : FormState) : FormState :=
  if s.prevAdType ≠ none ∧ s.prevAdType ≠ some s.adType then
    { s with adTypeDetail := "", prevAdType := some s.adType }
  else { s with prevAdType := some s.adType }

/-- The `[costCenter]` effect: clear the sub ledger on a change, with the
`costCenter || null` normalisation on both the comparison and the stored
previous value. -/
def runCostCenterEffect (s : FormState) : FormState :=
  if s.prevCostCenter ≠ none ∧ s.prevCostCenter ≠ ccOrNull s.costCenter then
    { s with subLedger := "", prevCostCenter := ccOrNull s.costCenter }
  else { s with prevCostCenter := ccOrNull s.costCenter }

/-- One pass over the four effects in declaration order.  Because the pass
order agrees with the cascade direction and each effect is idempotent once
its previous-value ref matches the current value, a single ordered pass
reaches the same fixpoint React reaches by re-running effects whose
dependencies changed. -/
def runEffects (s : FormState) : FormState :=
  runCostCenterEffect (runAdTypeEffect (runCampaignSourceEffect (runCampaignTypeEffect s)))

/-- Setter `form.setValue` on one of the six hierarchy fields. -/
def setField (s : FormState) : Field → String → FormState
  | .campaignType, v => { s with campaignType := v }
  | .campaignSource, v => { s with campaignSource := v }
  | .adType, v => { s with adType := v }
  | .adTypeDetail, v => { s with adTypeDetail := v }
  | .costCenter, v => { s with costCenter := v }
  | .subLedger, v => { s with subLedger := v }

/-- A committed field change: set the value, then let the effects settle. -/
def commit (s : FormState) (f : Field) (v : String) : FormState :=
  runEffects (setField s f v)

/-- Initial mount: the `useRef` cells start at `null` and the effects run
once after the first render. -/
def mount (s : FormState) : FormState :=
  runEffects { s with prevCampaignType := none, prevCampaignSource := none,
                      prevAdType := none, prevCostCenter := none }

/-- In every settled state each previous-value ref holds the current value
(for the cost center, its `|| null` normalisation). -/
def PrevConsistent (s : FormState) : Prop :=
  s.prevCampaignType = some s.campaignType ∧
  s.prevCampaignSource = some s.campaignSource ∧
  s.prevAdType = some s.adType ∧
  s.prevCostCenter = ccOrNull s.costCenter

lemma mount_eq (s : FormState) :
    mount s = { s with prevCampaignType := some s.campaignType,
                       prevCampaignSource := some s.campaignSource,
                       prevAdType := some s.adType,
                       prevCostCenter := ccOrNull s.costCenter } := by
  simp [mount, runEffects, runCampaignTypeEffect, runCampaignSourceEffect,
        runAdTypeEffect, runCostCenterEffect]

lemma prevConsistent_mount (s : FormState) : PrevConsistent (mount s) := by
  rw [mount_eq]; exact ⟨rfl, rfl, rfl, rfl⟩

lemma commit_campaignType_eq (s : FormState) (v : String) (h : PrevConsistent s) :
    commit s .campaignType v =
      if v = s.campaignType then s
      else { s with campaignType := v, campaignSource := "", adType := "",
                    adTypeDetail := "", prevCampaignType := some v,
                    prevCampaignSource := some "", prevAdType := some "" } := by
  obtain ⟨h1, h2, h3, h4⟩ := h
  by_cases hv : v = s.campaignType
  · subst hv
    simp [commit, setField, runEffects, runCampaignTypeEffect,
          runCampaignSourceEffect, runAdTypeEffect, runCostCenterEffect,
          h1, h2, h3, h4]
    rw [← h1, ← h2, ← h3, ← h4]
  · by_cases hcs : s.campaignSource = ""
    · simp [commit, setField, runEffects, runCampaignTypeEffect,
            runCampaignSourceEffect, runAdTypeEffect, runCostCenterEffect,
            h1, h2, h3, h4, hv, hcs, Ne.symm hv]
    · simp [commit, setField, runEffects, runCampaignTypeEffect,
            runCampaignSourceEffect, runAdTypeEffect, runCostCenterEffect,
            h1, h2, h3, h4, hv, hcs, Ne.symm hv]

lemma commit_campaignSource_eq (s : FormState) (v : String) (h : PrevConsistent s) :
    commit s .campaignSource v =
      if v = s.campaignSource then s
      else { s with campaignSource := v, adType := "", adTypeDetail := "",
                    prevCampaignSource := some v, prevAdType := some "" } := by
  obtain ⟨h1, h2, h3, h4⟩ := h
  by_cases hv : v = s.campaignSource
  · subst hv
    simp [commit, setField, runEffects, runCampaignTypeEffect,
          runCampaignSourceEffect, runAdTypeEffect, runCostCenterEffect,
          h1, h2, h3, h4]
    rw [← h1, ← h2, ← h3, ← h4]
  · by_cases hat : s.adType = ""
    · simp [commit, setField, runEffects, runCampaignTypeEffect,
            runCampaignSourceEffect, runAdTypeEffect, runCostCenterEffect,
            h1, h2, h3, h4, hv, hat, Ne.symm hv]
    · simp [commit, setField, runEffects, runCampaignTypeEffect,
            runCampaignSourceEffect, runAdTypeEffect, runCostCenterEffect,
            h1, h2, h3, h4, hv, hat, Ne.symm hv]

lemma commit_adType_eq (s : FormState) (v : String) (h : PrevConsistent s) :
    commit s .adType v =
      if v = s.adType then s
      else { s with adType := v, adTypeDetail := "", prevAdType := some v } := by
  obtain ⟨h1, h2, h3, h4⟩ := h
  by_cases hv : v = s.adType
  · subst hv
    simp [commit, setField, runEffects, runCampaignTypeEffect,
          runCampaignSourceEffect, runAdTypeEffect, runCostCenterEffect,
          h1, h2, h3, h4]
    rw [← h1, ← h2, ← h3, ← h4]
  · simp [commit, setField, runEffects, runCampaignTypeEffect,
          runCampaignSourceEffect, runAdTypeEffect, runCostCenterEffect,
          h1, h2, h3, h4, hv, Ne.symm hv]

lemma commit_adTypeDetail_eq (s : FormState) (v : String) (h : PrevConsistent s) :
    commit s .adTypeDetail v = { s with adTypeDetail := v } := by
  obtain ⟨h1, h2, h3, h4⟩ := h
  simp [commit, setField, runEffects, runCampaignTypeEffect,
        runCampaignSourceEffect, runAdTypeEffect, runCostCenterEffect,
        h1, h2, h3, h4]

lemma commit_costCenter_eq (s : FormState) (v : String) (h : PrevConsistent s) :
    commit s .costCenter v =
      if s.costCenter = "" ∨ v = s.costCenter then
        { s with costCenter := v, prevCostCenter := ccOrNull v }
      else { s with costCenter := v, subLedger := "",
                    prevCostCenter := ccOrNull v } := by
  obtain ⟨h1, h2, h3, h4⟩ := h
  by_cases hcc : s.costCenter = ""
  · simp [commit, setField, runEffects, runCampaignTypeEffect,
          runCampaignSourceEffect, runAdTypeEffect, runCostCenterEffect,
          h1, h2, h3, h4, hcc, ccOrNull]
  · by_cases hv : v = s.costCenter
    · subst hv
      simp [commit, setField, runEffects, runCampaignTypeEffect,
            runCampaignSourceEffect, runAdTypeEffect, runCostCenterEffect,
            h1, h2, h3, h4, hcc, ccOrNull]
    · have hne : ccOrNull v ≠ some s.costCenter := by
        by_cases hv0 : v = ""
        · simp [ccOrNull, hv0]
        · simp [ccOrNull, hv0, hv]
      simp [commit, setField, runEffects, runCampaignTypeEffect,
            runCampaignSourceEffect, runAdTypeEffect, runCostCenterEffect,
            h1, h2, h3, h4, hcc, hv, ccOrNull, hne, Ne.symm hv]

lemma commit_subLedger_eq (s : FormState) (v : String) (h : PrevConsistent s) :
    commit s .subLedger v = { s with subLedger := v } := by
  obtain ⟨h1, h2, h3, h4⟩ := h
  simp [commit, setField, runEffects, runCampaignTypeEffect,
        runCampaignSourceEffect, runAdTypeEffect, runCostCenterEffect,
        h1, h2, h3, h4]

/-- The option lists the form's `Select` components offer, so the only values
a user can commit to each hierarchy field in a given state. -/
def allowedOptions (s : FormState) : Field → List String
  | .campaignType => mockCampaignTypes
  | .campaignSource => filteredCampaignSources s.campaignType
  | .adType => filteredAdTypes s.campaignType s.campaignSource
  | .adTypeDetail => filteredAdTypeDetails s.campaignType s.adType
  | .costCenter => mockCostCenters
  | .subLedger => filteredSubLedgers s.costCenter

/-- States reachable from a settled state by committed field changes, each
committing one of the values the form offers for the field. -/
inductive Reachable : FormState → FormState → Prop where
  | refl (s : FormState) : Reachable s s
  | step {s t : FormState} {f : Field} {v : String} :
      Reachable s t → v ∈ allowedOptions t f → Reachable s (commit t f v)

/-- The hierarchy invariant exactly as the specification states it: each
child field's value is a member of its parent's valid set. -/
def StrictHierInv (s : FormState) : Prop :=
  s.campaignSource ∈ filteredCampaignSources s.campaignType ∧
  s.adType ∈ filteredAdTypes s.campaignType s.campaignSource ∧
  s.adTypeDetail ∈ filteredAdTypeDetails s.campaignType s.adType ∧
  s.subLedger ∈ filteredSubLedgers s.costCenter

/-- The hierarchy invariant the code actually maintains: each child field is
either empty (the reset value) or a member of its parent's valid set. -/
def WeakHierInv (s : FormState) : Prop :=
  (s.campaignSource = "" ∨ s.campaignSource ∈ filteredCampaignSources s.campaignType) ∧
  (s.adType = "" ∨ s.adType ∈ filteredAdTypes s.campaignType s.campaignSource) ∧
  (s.adTypeDetail = "" ∨ s.adTypeDetail ∈ filteredAdTypeDetails s.campaignType s.adType) ∧
  (s.subLedger = "" ∨ s.subLedger ∈ filteredSubLedgers s.costCenter)

instance (s : FormState) : Decidable (PrevConsistent s) := by
  unfold PrevConsistent; infer_instance

instance (s : FormState) : Decidable (StrictHierInv s) := by
  unfold StrictHierInv; infer_instance

instance (s : FormState) : Decidable (WeakHierInv s) := by
  unfold WeakHierInv; infer_instance

lemma prevConsistent_commit (s : FormState) (f : Field) (v : String)
    (hp : PrevConsistent s) : PrevConsistent (commit s f v) := by
  obtain ⟨h1, h2, h3, h4⟩ := hp
  cases f
  · rw [commit_campaignType_eq s v ⟨h1, h2, h3, h4⟩]
    split_ifs with hv
    · exact ⟨h1, h2, h3, h4⟩
    · exact ⟨rfl, rfl, rfl, h4⟩
  · rw [commit_campaignSource_eq s v ⟨h1, h2, h3, h4⟩]
    split_ifs with hv
    · exact ⟨h1, h2, h3, h4⟩
    · exact ⟨h1, rfl, rfl, h4⟩
  · rw [commit_adType_eq s v ⟨h1, h2, h3, h4⟩]
    split_ifs with hv
    · exact ⟨h1, h2, h3, h4⟩
    · exact ⟨h1, h2, rfl, h4⟩
  · rw [commit_adTypeDetail_eq s v ⟨h1, h2, h3, h4⟩]
    exact ⟨h1, h2, h3, h4⟩
  · rw [commit_costCenter_eq s v ⟨h1, h2, h3, h4⟩]
    split_ifs with hv
    · exact ⟨h1, h2, h3, rfl⟩
    · exact ⟨h1, h2, h3, rfl⟩
  · rw [commit_subLedger_eq s v ⟨h1, h2, h3, h4⟩]
    exact ⟨h1, h2, h3, h4⟩

lemma filteredSubLedgers_empty : filteredSubLedgers "" = [] := rfl

lemma weakHierInv_commit (s : FormState) (f : Field) (v : String)
    (hp : PrevConsistent s) (hw : WeakHierInv s)
    (ha : v ∈ allowedOptions s f) : WeakHierInv (commit s f v) := by
  obtain ⟨w1, w2, w3, w4⟩ := hw
  cases f
  · rw [commit_campaignType_eq s v hp]
    split_ifs with hv
    · exact ⟨w1, w2, w3, w4⟩
    · exact ⟨Or.inl rfl, Or.inl rfl, Or.inl rfl, w4⟩
  · rw [commit_campaignSource_eq s v hp]
    split_ifs with hv
    · exact ⟨w1, w2, w3, w4⟩
    · exact ⟨Or.inr ha, Or.inl rfl, Or.inl rfl, w4⟩
  · rw [commit_adType_eq s v hp]
    split_ifs with hv
    · exact ⟨w1, w2, w3, w4⟩
    · exact ⟨w1, Or.inr ha, Or.inl rfl, w4⟩
  · rw [commit_adTypeDetail_eq s v hp]
    exact ⟨w1, w2, Or.inr ha, w4⟩
  · rw [commit_costCenter_eq s v hp]
    split_ifs with hv
    · rcases hv with hcc | hv
      · refine ⟨w1, w2, w3, Or.inl ?_⟩
        rcases w4 with w4 | w4
        · exact w4
        · rw [hcc, filteredSubLedgers_empty] at w4
          exact absurd w4 (List.not_mem_nil _)
      · subst hv
        exact ⟨w1, w2, w3, w4⟩
    · exact ⟨w1, w2, w3, Or.inl rfl⟩
  · rw [commit_subLedger_eq s v hp]
    exact ⟨w1, w2, w3, Or.inr ha⟩

lemma reachable_weakHierInv {t s : FormState} (h : Reachable t s)
    (hp : PrevConsistent t) (hw : WeakHierInv t) :
    WeakHierInv s ∧ PrevConsistent s := by
  induction h with
  | refl => exact ⟨hw, hp⟩
  | step hr ha ih =>
    obtain ⟨ihw, ihp⟩ := ih
    exact ⟨weakHierInv_commit _ _ _ ihp ihw ha, prevConsistent_commit _ _ _ ihp⟩

/-- C3 (amended): from a mounted draft satisfying the guarded hierarchy
invariant, every state reachable by committed field changes keeps each child
field either empty or inside its parent's valid set — a stale child value
outside the new parent's valid set never persists after a parent change. -/
theorem hierarchy_invariant_reachable (i s : FormState)
    (hw : WeakHierInv (mount i)) (hr : Reachable (mount i) s) :
    WeakHierInv s :=
  (reachable_weakHierInv hr (prevConsistent_mount i) hw).1

/-- A prefilled draft whose values all sit inside their parents' valid sets. -/
def sampleDraft : FormState :=
  ⟨"Display Ads", "Google", "Banner", "Standard Banner",
   "Engineering", "Engineering Projects", none, none, none, none⟩

theorem hierarchy_invariant_reachable_witness :
    WeakHierInv (commit (mount sampleDraft) .campaignType "Email Campaign") :=
  hierarchy_invariant_reachable sampleDraft _ (by decide)
    (Reachable.step (Reachable.refl _) (by decide))

/-- C3 counterexample: the strict membership invariant, as the claim states
it, is falsified one committed change away from a mounted draft that fully
satisfies it — changing the campaign type resets the source to the empty
string, which is not a member of the new type's source list. -/
theorem hierarchy_strict_invariant_counterexample :
    StrictHierInv (mount sampleDraft) ∧
    Reachable (mount sampleDraft) (commit (mount sampleDraft) .campaignType "Email Campaign") ∧
    ¬ StrictHierInv (commit (mount sampleDraft) .campaignType "Email Campaign") :=
  ⟨by decide, Reachable.step (Reachable.refl _) (by decide), by decide⟩

/-- C4 (amended): no reset fires on initial mount (the mounted state keeps
every pre-filled value), and on any committed change of a parent field in a
settled state where the new value differs from the previous one, all of the
parent's direct child fields are cleared to empty — except that the cost
center effect treats a previous empty value as uninitialised (its
`costCenter || null` guard), so a change of costCenter away from the empty
string clears nothing. -/
theorem cascade_reset_on_commit (i s : FormState) (v : String)
    (hp : PrevConsistent s) :
    ((mount i).campaignType = i.campaignType ∧
     (mount i).campaignSource = i.campaignSource ∧
     (mount i).adType = i.adType ∧
     (mount i).adTypeDetail = i.adTypeDetail ∧
     (mount i).costCenter = i.costCenter ∧
     (mount i).subLedger = i.subLedger) ∧
    (v ≠ s.campaignType →
      (commit s .campaignType v).campaignSource = "" ∧
      (commit s .campaignType v).adType = "" ∧
      (commit s .campaignType v).adTypeDetail = "") ∧
    (v ≠ s.campaignSource →
      (commit s .campaignSource v).adType = "" ∧
      (commit s .campaignSource v).adTypeDetail = "") ∧
    (v ≠ s.adType → (commit s .adType v).adTypeDetail = "") ∧
    (s.costCenter ≠ "" → v ≠ s.costCenter →
      (commit s .costCenter v).subLedger = "") ∧
    (s.costCenter = "" → (commit s .costCenter v).subLedger = s.subLedger) := by
  refine ⟨?_, ?_, ?_, ?_, ?_, ?_⟩
  · rw [mount_eq]; exact ⟨rfl, rfl, rfl, rfl, rfl, rfl⟩
  · intro hv
    rw [commit_campaignType_eq s v hp]
    simp [hv]
  · intro hv
    rw [commit_campaignSource_eq s v hp]
    simp [hv]
  · intro hv
    rw [commit_adType_eq s v hp]
    simp [hv]
  · intro hcc hv
    rw [commit_costCenter_eq s v hp]
    simp [hcc, hv]
  · intro hcc
    rw [commit_costCenter_eq s v hp]
    simp [hcc]

theorem cascade_reset_on_commit_witness :
    (commit (mount sampleDraft) .campaignType "Email Campaign").campaignSource = "" ∧
    (commit (mount sampleDraft) .campaignType "Email Campaign").adType = "" ∧
    (commit (mount sampleDraft) .campaignType "Email Campaign").adTypeDetail = "" :=
  (cascade_reset_on_commit sampleDraft (mount sampleDraft) "Email Campaign"
    (by decide)).2.1 (by decide)

/-- A draft mounted with an empty cost center but a pre-filled sub ledger. -/
def prefilledDraft : FormState :=
  ⟨"", "", "", "", "", "Engineering Projects", none, none, none, none⟩

/-- C4 counterexample: after mounting `prefilledDraft`, committing
costCenter := "Engineering" is a committed change whose previous value (the
empty string, a real post-mount value) differs from the new one, yet the
child subLedger is not cleared — the `costCenter || null` guard treats the
empty previous value as uninitialised. -/
theorem cascade_reset_cost_center_counterexample :
    (mount prefilledDraft).costCenter = "" ∧
    (mount prefilledDraft).subLedger = "Engineering Projects" ∧
    (commit (mount prefilledDraft) .costCenter "Engineering").costCenter = "Engineering" ∧
    (commit (mount prefilledDraft) .costCenter "Engineering").subLedger
      = "Engineering Projects" := by
  decide

/-! ## Required-field policy, per-field status and completion tracking -/

/-- The fixed `baseRequiredFields` list of `isFieldRequired`. -/
def baseRequiredFields : List String :=
  ["baseUrl", "campaignType", "campaignSource", "adType",
   "brand1", "productCategory", "campaignOwner", "startDate",
   "campaignNotes", "projectReferenceNumber", "industry", "tactic"]

/-- Policy `isFieldRequired`: true on the fixed base list; for `subLedger` the
truthiness of the watched cost-center value (`!!costCenter`); false
otherwise.  The cost-center value is the only piece of form state read. -/
def isFieldRequired (fieldName : String) (costCenter : String) : Bool :=
  if baseRequiredFields.contains fieldName then true
  else if fieldName = "subLedger" then costCenter != ""
  else false

/-- C6: subLedger is reported required exactly when the cost center is
non-empty, and every other field's required-ness is a constant, independent
of the form state. -/
theorem subLedger_required_iff (costCenter : String) :
    (isFieldRequired "subLedger" costCenter = true ↔ costCenter ≠ "") ∧
    ∀ fieldName, fieldName ≠ "subLedger" →
      ∀ costCenter2, isFieldRequired fieldName costCenter =
        isFieldRequired fieldName costCenter2 := by
  constructor
  · simp [isFieldRequired, baseRequiredFields]
  · intro fieldName hf costCenter2
    simp [isFieldRequired, hf]

theorem subLedger_required_iff_witness :
    (isFieldRequired "subLedger" "Engineering" = true ↔ "Engineering" ≠ "") ∧
    isFieldRequired "partnerName" "Engineering" = isFieldRequired "partnerName" "" :=
  ⟨(subLedger_required_iff "Engineering").1,
   (subLedger_required_iff "Engineering").2 "partnerName" (by decide) ""⟩

/-- Status `getFieldStatus`, abstracted over the three booleans the component
computes for a field: whether the schema reported an error, whether the
field is tracked as completed, and whether it is required. -/
def getFieldStatus (hasError isCompleted isRequired : Bool) : String :=
  if hasError then "error"
  else if isRequired && !isCompleted then "required"
  else if isCompleted then "completed"
  else "default"

/-- C9: the status function is total with a fixed precedence — an error wins
over everything, then an unmet required field, then completion, then the
default — and always answers one of the four statuses. -/
theorem getFieldStatus_precedence :
    (∀ c r, getFieldStatus true c r = "error") ∧
    getFieldStatus false false true = "required" ∧
    getFieldStatus false true true = "completed" ∧
    getFieldStatus false true false = "completed" ∧
    getFieldStatus false false false = "default" ∧
    ∀ e c r, getFieldStatus e c r ∈ ["error", "required", "completed", "default"] := by
  decide

/-- A JavaScript value appearing in the watched `formValues` object: a
string, a boolean, a date, `undefined`, or `null`. -/
inductive FieldValue where
  | str (s : String)
  | bool (b : Bool)
  | date (timestamp : Nat)
  | undef
  | null
deriving DecidableEq

/-- The completion test of the tracking effect:
`value !== "" && value !== undefined && value !== null`.  Under JavaScript's
strict inequality a boolean — also `false` — differs from all three. -/
def isCompletedValue : FieldValue → Bool
  | .str s => s != ""
  | .bool _ => true
  | .date _ => true
  | .undef => false
  | .null => false

/-- The `completedFields` set rebuilt by the effect: the keys of the entries
whose value passes the completion test. -/
def completedFieldKeys (entries : List (String × FieldValue)) : List String :=
  (entries.filter (fun kv => isCompletedValue kv.2)).map (·.1)

/-- C10: a value counts as completed exactly when it is neither the empty
string, nor undefined, nor null; in particular a boolean field is completed
even when its value is `false`. -/
theorem completed_iff_not_empty_undefined_null :
    (∀ v : FieldValue, isCompletedValue v = true ↔
      (v ≠ .str "" ∧ v ≠ .undef ∧ v ≠ .null)) ∧
    (∀ b : Bool, isCompletedValue (.bool b) = true) ∧
    isCompletedValue (.bool false) = true := by
  refine ⟨?_, fun b => rfl, rfl⟩
  intro v
  cases v <;> simp [isCompletedValue]

/-! ## Submission schema (`campaignFormSchema`)

The form always supplies strings for the optional string fields (its
`defaultValues` map absent values to `""`), so those are embedded as plain
`String`; the two dates are `Option Nat` (a date value or `undefined`).
Validation produces the list of `(path, message)` issues; zod runs the
`.refine` only when the per-field checks produced no issue.
-/

/-- Modelled from the spec: the repository calls zod's `z.string().url()`,
whose implementation is library code not in the repository.  Following the
spec ("absolute URL", "complete URL including https://"), accept exactly the
strings that extend one of the two scheme prefixes. -/
def isValidUrl (s : String) : Bool :=
  ("https://".data.isPrefixOf s.data && s != "https://") ||
  ("http://".data.isPrefixOf s.data && s != "http://")

/-- The shape of `CampaignFormData`. -/
structure CampaignFormData where
  baseUrl : String
  anchorTag : String
  campaignType : String
  campaignSource : String
  adType : String
  adTypeDetail : String
  targeting : Bool
  brand1 : String
  brand2 : String
  brand3 : String
  productCategory : String
  productBrand : String
  campaignOwner : String
  startDate : Option Nat
  endDate : Option Nat
  campaignNotes : String
  projectReferenceNumber : String
  budget : String
  industry : String
  tactic : String
  costCenter : String
  subLedger : String
  partnering : Bool
  partnerName : String
  thirdParty : Bool
  thirdPartyName : String
deriving DecidableEq

/-- The issues one zod field check contributes: none when the check passes,
one `(path, message)` issue otherwise. -/
def minIssue (ok : Bool) (path msg : String) : List (String × String) :=
  if ok then [] else [(path, msg)]

/-- The per-field checks of `campaignFormSchema`, in declaration order; the
fields without a check (`.optional()` strings, the booleans, `endDate`)
contribute nothing. -/
def fieldIssues (d : CampaignFormData) : List (String × String) :=
  minIssue (isValidUrl d.baseUrl) "baseUrl" "Must be a valid URL" ++
  minIssue (d.campaignType != "") "campaignType" "Campaign type is required" ++
  minIssue (d.campaignSource != "") "campaignSource" "Campaign source is required" ++
  minIssue (d.adType != "") "adType" "Ad type is required" ++
  minIssue (d.brand1 != "") "brand1" "Brand 1 is required" ++
  minIssue (d.productCategory != "") "productCategory" "Product category is required" ++
  minIssue (d.campaignOwner != "") "campaignOwner" "Campaign owner is required" ++
  minIssue d.startDate.isSome "startDate" "Start date is required" ++
  minIssue (d.campaignNotes != "") "campaignNotes" "Campaign notes are required" ++
  minIssue (d.projectReferenceNumber != "") "projectReferenceNumber"
    "Project reference number is required" ++
  minIssue (d.industry != "") "industry" "Industry is required" ++
  minIssue (d.tactic != "") "tactic" "Tactic is required"

/-- The `.refine` predicate: when the cost center is truthy and non-blank
after trimming, the sub ledger must be truthy and non-blank after trimming. -/
def subLedgerRefine (d : CampaignFormData) : Bool :=
  if d.costCenter != "" && jsTrim d.costCenter != "" then
    d.subLedger != "" && jsTrim d.subLedger != ""
  else true

/-- Full schema validation: the per-field issues, and — only when those are
empty — the refine issue on the `subLedger` path. -/
def campaignFormValidate (d : CampaignFormData) : List (String × String) :=
  if (fieldIssues d).isEmpty then
    if subLedgerRefine d then []
    else [("subLedger", "Sub Ledger is required when Cost Center is selected")]
  else fieldIssues d

/-- The conditional rendering of the partner-name block:
`form.watch("partnering") && (...)`. -/
def partnerNameShown (partnering : Bool) : Bool := partnering

/-- The conditional rendering of the third-party-name block:
`form.watch("thirdParty") && (...)`. -/
def thirdPartyNameShown (thirdParty : Bool) : Bool := thirdParty

/-- The full valid draft of the spec's acceptance example. -/
def validDraftBase : CampaignFormData :=
  { baseUrl := "https://example.com", anchorTag := "",
    campaignType := "Display Ads", campaignSource := "Google",
    adType := "Banner", adTypeDetail := "Standard Banner", targeting := false,
    brand1 := "Brand A", brand2 := "", brand3 := "",
    productCategory := "Hardware", productBrand := "",
    campaignOwner := "Daniel Konig", startDate := some 0, endDate := none,
    campaignNotes := "launch", projectReferenceNumber := "1234567",
    budget := "", industry := "Technology", tactic := "Awareness",
    costCenter := "", subLedger := "", partnering := false, partnerName := "",
    thirdParty := false, thirdPartyName := "" }

/-- C7 (amended): a draft that passes the per-field checks, whose cost
center is non-empty after trimming and whose sub ledger is empty or
whitespace, fails validation with exactly the violation attached to the
`subLedger` field. -/
theorem subLedger_violation_on_submit (d : CampaignFormData)
    (hf : fieldIssues d = []) (hcc : jsTrim d.costCenter ≠ "")
    (hsl : jsTrim d.subLedger = "") :
    campaignFormValidate d =
      [("subLedger", "Sub Ledger is required when Cost Center is selected")] := by
  have hcc0 : d.costCenter ≠ "" := by
    intro h0
    exact hcc (by rw [h0]; rfl)
  have href : subLedgerRefine d = false := by
    simp [subLedgerRefine, hcc0, hcc, hsl]
  simp [campaignFormValidate, hf, href]

theorem subLedger_violation_on_submit_witness :
    campaignFormValidate { validDraftBase with costCenter := "Engineering" } =
      [("subLedger", "Sub Ledger is required when Cost Center is selected")] :=
  subLedger_violation_on_submit { validDraftBase with costCenter := "Engineering" }
    (by decide) (by decide) (by decide)

/-- C7 counterexample: a whitespace-only cost center is non-empty, yet the
refine tests the trimmed value, so this otherwise valid draft with an empty
sub ledger passes validation — no violation is attached anywhere. -/
theorem subLedger_whitespace_cost_center_counterexample :
    ({ validDraftBase with costCenter := "   " } : CampaignFormData).costCenter ≠ "" ∧
    ({ validDraftBase with costCenter := "   " } : CampaignFormData).subLedger = "" ∧
    campaignFormValidate { validDraftBase with costCenter := "   " } = [] := by
  decide

lemma mem_minIssue {pr : String × String} {ok : Bool} {path msg : String}
    (h : pr ∈ minIssue ok path msg) : pr = (path, msg) := by
  unfold minIssue at h
  split at h <;> simp_all

lemma fieldIssues_paths {d : CampaignFormData} {pr : String × String}
    (h : pr ∈ fieldIssues d) :
    pr.1 ∈ ["baseUrl", "campaignType", "campaignSource", "adType", "brand1",
            "productCategory", "campaignOwner", "startDate", "campaignNotes",
            "projectReferenceNumber", "industry", "tactic"] := by
  unfold fieldIssues at h
  simp only [List.mem_append] at h
  rcases h with (((((((((((h | h) | h) | h) | h) | h) | h) | h) | h) | h) | h) | h) <;>
    (rw [mem_minIssue h]; decide)

/-- C8 (amended): `partnerName` and `thirdPartyName` are only shown while
partnering (resp. thirdParty) is true, but they are never reported required
by `isFieldRequired` and never enforced — no validation issue is ever
attached to either field. -/
theorem partnerName_not_required (partnering thirdParty : Bool)
    (costCenter : String) (d : CampaignFormData) (pr : String × String) :
    partnerNameShown partnering = partnering ∧
    thirdPartyNameShown thirdParty = thirdParty ∧
    isFieldRequired "partnerName" costCenter = false ∧
    isFieldRequired "thirdPartyName" costCenter = false ∧
    (pr ∈ campaignFormValidate d →
      pr.1 ≠ "partnerName" ∧ pr.1 ≠ "thirdPartyName") := by
  refine ⟨rfl, rfl, by simp [isFieldRequired, baseRequiredFields],
          by simp [isFieldRequired, baseRequiredFields], ?_⟩
  intro h
  unfold campaignFormValidate at h
  split_ifs at h with h1 h2
  · exact absurd h (List.not_mem_nil _)
  · rw [List.mem_singleton] at h
    rw [h]
    exact ⟨by decide, by decide⟩
  · have hm := fieldIssues_paths h
    constructor <;> (intro he; rw [he] at hm; revert hm; decide)

theorem partnerName_not_required_witness :
    partnerNameShown true = true ∧
    thirdPartyNameShown true = true ∧
    isFieldRequired "partnerName" "Engineering" = false ∧
    isFieldRequired "thirdPartyName" "Engineering" = false ∧
    (("brand1", "Brand 1 is required") ∈
        campaignFormValidate { validDraftBase with brand1 := "" } →
      ("brand1", "Brand 1 is required").1 ≠ "partnerName" ∧
      ("brand1", "Brand 1 is required").1 ≠ "thirdPartyName") :=
  partnerName_not_required true true "Engineering"
    { validDraftBase with brand1 := "" } ("brand1", "Brand 1 is required")

/-- C8 counterexample: a draft with partnering and thirdParty switched on
and both names empty passes validation with no issue at all, and neither
name field is reported required — required-ness and enforcement, as the
claim states them, fail at this input. -/
theorem partnerName_required_counterexample :
    ({ validDraftBase with partnering := true, thirdParty := true }
        : CampaignFormData).partnering = true ∧
    ({ validDraftBase with partnering := true, thirdParty := true }
        : CampaignFormData).partnerName = "" ∧
    campaignFormValidate
      { validDraftBase with partnering := true, thirdParty := true } = [] ∧
    isFieldRequired "partnerName" "" = false ∧
    isFieldRequired "thirdPartyName" "" = false := by
  decide

end CampaignBuilder
